import Mathlib

/-!
# Post-provisioning hooks of `pipeline` (`cluster/hooks.go`) and the Amazon object store
(`objectstore/amazon.go`)

The Go code is embedded shallowly.  Stateful code is written in explicit state-passing
style over a `World` that records every call made on an external collaborator
(the cluster API client, the file store, the shared configmap store, the package manager,
the organization resolver) together with the contents of the file store and of the
configmap store.  A Go `error` result is an `Option Err` (`none` is `nil`).

What a collaborator answers is not decided by the hooks: the answer to the `k`-th call of a
given kind is read from the cluster handle or from the environment `Env`, where `k` is the
number of calls of that kind recorded so far.  Logging is not modelled.
-/

namespace Pipeline

/-- A Go `[]byte`; the nil slice and the empty slice are both `[]`. -/
abbrev Bytes := List Nat

/-- A non-nil Go `error`, identified with its message. -/
abbrev Err := String

/-! ## Key/value stores (file store, Go maps) -/

/-- Assignment `m[k] = v`: overwrite the entry of `k` when there is one, else add it. -/
def Store.set {β : Type} (k : String) (v : β) : List (String × β) → List (String × β)
  | [] => [(k, v)]
  | (k', v') :: rest => if k' = k then (k, v) :: rest else (k', v') :: Store.set k v rest

/-- Lookup `m[k]`. -/
def Store.get {β : Type} (k : String) : List (String × β) → Option β
  | [] => none
  | (k', v') :: rest => if k' = k then some v' else Store.get k rest

/-! ## Calls on external collaborators -/

/-- The kinds of calls the hooks make on their collaborators. -/
inductive Kind
  | DownloadK8sConfig | GetK8sConfig | Sleep | StoreKubernetesConfig | WriteToFile
  | GetK8sInClusterConnection | ConfigMapsGet | ConfigMapsUpdate | GetOrganizationById
  | CreateDeployment | RetryHelmInstall | GetHelmClient | UpdatePrometheusConfig
  deriving DecidableEq, Repr

/-- One recorded call, with the arguments it was given. -/
inductive Event
  | DownloadK8sConfig
  | GetK8sConfig
  | Sleep (seconds : Int)
  | StoreKubernetesConfig (config : Bytes)
  | WriteToFile (data : Bytes) (path : String)
  | GetK8sInClusterConnection
  | ConfigMapsGet (name : String)
  | ConfigMapsUpdate (name : String) (data : Option (List (String × Bytes)))
  | GetOrganizationById (id : Nat)
  | CreateDeployment (deploymentName ns releaseName : String) (values kubeConfig : Bytes)
      (repoEnv : String)
  | RetryHelmInstall (ns serviceAccount imageSpec : String) (kubeConfig : Bytes)
  | GetHelmClient (kubeConfig : Bytes)
  | UpdatePrometheusConfig
  deriving DecidableEq, Repr

/-- The kind of a recorded call. -/
def Event.kind : Event → Kind
  | .DownloadK8sConfig => .DownloadK8sConfig
  | .GetK8sConfig => .GetK8sConfig
  | .Sleep _ => .Sleep
  | .StoreKubernetesConfig _ => .StoreKubernetesConfig
  | .WriteToFile _ _ => .WriteToFile
  | .GetK8sInClusterConnection => .GetK8sInClusterConnection
  | .ConfigMapsGet _ => .ConfigMapsGet
  | .ConfigMapsUpdate _ _ => .ConfigMapsUpdate
  | .GetOrganizationById _ => .GetOrganizationById
  | .CreateDeployment _ _ _ _ _ _ => .CreateDeployment
  | .RetryHelmInstall _ _ _ _ => .RetryHelmInstall
  | .GetHelmClient _ => .GetHelmClient
  | .UpdatePrometheusConfig => .UpdatePrometheusConfig

/-- Number of calls of kind `k` in a trace. -/
def countKind (k : Kind) (t : List Event) : Nat :=
  (t.filter (fun e => decide (e.kind = k))).length

/-- The state outside the hooks: the calls made so far (oldest first), the file store
(path to content) and the configmaps of namespace `default` (name to `Data` map; `none` is
the nil map of a configmap without data). -/
structure World where
  trace : List Event
  files : List (String × Bytes)
  configmaps : List (String × Option (List (String × Bytes)))
  deriving DecidableEq, Repr

/-- Record one call. -/
def World.emit (w : World) (e : Event) : World :=
  { w with trace := w.trace ++ [e] }

/-- Number of calls of kind `k` made so far. -/
def World.calls (w : World) (k : Kind) : Nat :=
  countKind k w.trace

/-! ## The cluster handle and the environment -/

/-- The `CommonCluster` interface, as far as the hooks use it.  `DownloadK8sConfig k` and
`GetK8sConfig k` are what the `k`-th call (counted from 0) of the method returns: the
bytes and the error. -/
structure CommonCluster where
  GetName : String
  GetOrganizationId : Nat
  GetType : String
  DownloadK8sConfig : Nat → Bytes × Option Err
  GetK8sConfig : Nat → Bytes × Option Err

/-- The `interface{}` argument of a hook: a `CommonCluster`, or a value of another type. -/
inductive Input
  | cluster (c : CommonCluster)
  | other (typeName : String)

/-- The type assertion `input.(CommonCluster)`. -/
def Input.asCluster : Input → Option CommonCluster
  | .cluster c => some c
  | .other _ => none

/-- The fields of `rest.Config` that the hooks read. -/
structure RestConfig where
  KeyData : Bytes
  CertData : Bytes
  CAData : Bytes
  deriving DecidableEq, Repr

/-- A `ConfigMap` record: its name and its `Data` map, `none` being the nil map.  The values
are kept as bytes (`string(b)` keeps the bytes of `b`). -/
structure ConfigMap where
  Name : String
  Data : Option (List (String × Bytes))
  deriving DecidableEq, Repr

/-- The record `&v1.ConfigMap{}` that the client hands back, next to the error, when a `Get`
fails: no name, a nil `Data` map. -/
def emptyConfigMap : ConfigMap := { Name := "", Data := none }

/-- How a call of a function ends: it returns its `error` result, or the goroutine stops with
a run-time panic. -/
inductive HookResult
  | returned (err : Option Err)
  | panicked (msg : String)
  deriving DecidableEq, Repr

/-- Modelled from the spec: the declaration of `nodeGroup` is not part of the sources at hand;
the spec gives a node group a name, a minimum size, a maximum size and a provider-specific
identifier. -/
structure nodeGroup where
  Name : String
  MinSize : Int
  MaxSize : Int
  Id : String
  deriving DecidableEq, Repr

/-- Modelled from the spec: the declaration of `autoscalingInfo` is not part of the sources at
hand; the spec describes a provider-tagged structure wrapping the node-group list plus
provider credential and region hints. -/
structure autoscalingInfo where
  Provider : String
  NodeGroups : List nodeGroup
  Hints : List (String × String)
  deriving DecidableEq, Repr

/-- Everything the hooks read that is declared outside `hooks.go`: the configuration values
(read through `viper`), constants and pure helpers of other packages, and the answers of the
collaborators.  The answer to a collaborator call is indexed by the number of earlier calls
of the same kind.  Go `int` values are unbounded integers here. -/
structure Env where
  /-- Configuration key `cloud.configRetryCount`. -/
  configRetryCount : Int
  /-- Configuration key `cloud.configRetrySleep`. -/
  configRetrySleep : Int
  /-- Configuration key `constants.HELM_RETRY_ATTEMPT_CONFIG`. -/
  helmRetryAttempt : Int
  /-- Configuration key `constants.HELM_RETRY_SLEEP_SECONDS`. -/
  helmRetrySleepSeconds : Int
  /-- Configuration key `helm.tillerVersion`. -/
  tillerVersion : String
  /-- Configuration key `monitor.configmap`. -/
  monitorConfigmap : String
  /-- Configuration key `monitor.mountPath`. -/
  monitorMountPath : String
  /-- Constant `helm.DefaultNamespace`. -/
  DefaultNamespace : String
  /-- Constant `helm.SystemNamespace`. -/
  SystemNamespace : String
  /-- Constant `autoSalerChart`. -/
  autoSalerChart : String
  /-- Helper `pipConfig.GetStateStorePath`. -/
  GetStateStorePath : String → String
  /-- Helper `helm.GetK8sClientConfig`: the parsed configuration and the error. -/
  GetK8sClientConfig : Bytes → RestConfig × Option Err
  /-- Helper `helm.GenerateHelmRepoEnv`. -/
  GenerateHelmRepoEnv : String → String
  getAmazonNodeGroups : CommonCluster → List nodeGroup
  getAzureNodeGroups : CommonCluster → List nodeGroup
  createAutoscalingForAmazon : CommonCluster → List nodeGroup → autoscalingInfo
  createAutoscalingForAzure : CommonCluster → List nodeGroup → autoscalingInfo
  /-- Serializer `yaml.Marshal` on an `autoscalingInfo`. -/
  yamlMarshal : autoscalingInfo → Bytes × Option Err
  StoreKubernetesConfig : Nat → Option Err
  WriteToFile : Nat → Option Err
  GetK8sInClusterConnection : Nat → Option Err
  /-- A failure of `ConfigMaps("default").Get` other than a missing record (the server cannot
  be reached, the request is refused); `none` when there is no such failure. -/
  ConfigMapsGet : Nat → Option Err
  ConfigMapsUpdate : Nat → Option Err
  /-- Resolver `auth.GetOrganizationById`: the name of the organization and the error. -/
  GetOrganizationById : Nat → String × Option Err
  CreateDeployment : Nat → Option Err
  RetryHelmInstall : Nat → Option Err
  GetHelmClient : Nat → Option Err
  UpdatePrometheusConfig : Nat → Option Err

/-- Provider kind `constants.Amazon` of `banzai-types`. -/
def Amazon : String := "amazon"

/-- Provider kind `constants.Azure` of `banzai-types`. -/
def Azure : String := "azure"

/-- A hook: `func(interface{}) error`, acting on a state `σ`. -/
abbrev Hook (σ : Type) := Input → σ → σ × Option Err

/-- The error of a failed type assertion, `errors.Errorf("Wrong parameter type: %T", cluster)`
with `cluster` the nil interface value. -/
def wrongParameterType : Err := "Wrong parameter type: <nil>"

/-! ## `hooks.go` -/

/-- The loop of `RunPostHooks`: every function of the list is called with the created
cluster, its result is dropped. -/
def RunPostHooks {σ : Type} (functionList : List (Hook σ)) (createdCluster : CommonCluster)
    (s : σ) : σ :=
  functionList.foldl (fun st i => (i (Input.cluster createdCluster) st).1) s

/-- The loop of `pollingKubernetesConfig`, by the number of iterations left
(`retryCount - i`); `kubeConfig` and `err` are the two loop variables. -/
def pollingLoop (cluster : CommonCluster) (retrySleepTime : Int) :
    Nat → World → Bytes → Option Err → World × Bytes × Option Err
  | 0, w, kubeConfig, err => (w, kubeConfig, err)
  | n + 1, w, _, _ =>
    let r := cluster.DownloadK8sConfig (w.calls Kind.DownloadK8sConfig)
    let w1 := w.emit Event.DownloadK8sConfig
    match r.2 with
    | some e => pollingLoop cluster retrySleepTime n (w1.emit (Event.Sleep retrySleepTime)) r.1 (some e)
    | none => (w1, r.1, none)

/-- The function `pollingKubernetesConfig`. -/
def pollingKubernetesConfig (env : Env) (cluster : CommonCluster) (w : World) :
    World × Bytes × Option Err :=
  pollingLoop cluster env.configRetrySleep env.configRetryCount.toNat w [] none

/-- The call `StoreKubernetesConfig(cluster, config)`; the function is declared outside
`hooks.go`, its answer comes from the environment. -/
def StoreKubernetesConfig (env : Env) (config : Bytes) (w : World) : World × Option Err :=
  (w.emit (Event.StoreKubernetesConfig config),
    env.StoreKubernetesConfig (w.calls Kind.StoreKubernetesConfig))

/-- The hook `StoreKubeConfig`. -/
def StoreKubeConfig (env : Env) : Hook World := fun input w =>
  match input.asCluster with
  | none => (w, some wrongParameterType)
  | some cluster =>
    match pollingKubernetesConfig env cluster w with
    | (w1, _, some err) => (w1, some err)
    | (w1, config, none) => StoreKubernetesConfig env config w1

/-- The call `cluster.GetK8sConfig()`. -/
def GetK8sConfig (cluster : CommonCluster) (w : World) : World × Bytes × Option Err :=
  (w.emit Event.GetK8sConfig, cluster.GetK8sConfig (w.calls Kind.GetK8sConfig))

/-- The function `installDeployment`. -/
def installDeployment (env : Env) (cluster : CommonCluster) (ns deploymentName releaseName : String)
    (values : Bytes) (w : World) : World × Option Err :=
  match GetK8sConfig cluster w with
  | (w1, _, some err) => (w1, some err)
  | (w1, kubeConfig, none) =>
    let org := env.GetOrganizationById (w1.calls Kind.GetOrganizationById)
    let w2 := w1.emit (Event.GetOrganizationById cluster.GetOrganizationId)
    match org.2 with
    | some err => (w2, some err)
    | none =>
      let w3 := w2.emit (Event.CreateDeployment deploymentName ns releaseName values kubeConfig
        (env.GenerateHelmRepoEnv org.1))
      match env.CreateDeployment (w2.calls Kind.CreateDeployment) with
      | some err => (w3, some err)
      | none => (w3, none)

/-- The hook `InstallMonitoring`. -/
def InstallMonitoring (env : Env) : Hook World := fun input w =>
  match input.asCluster with
  | none => (w, some wrongParameterType)
  | some cluster => installDeployment env cluster env.DefaultNamespace "" "" [] w

/-- The hook `InstallLogging`. -/
def InstallLogging (env : Env) : Hook World := fun input w =>
  match input.asCluster with
  | none => (w, some wrongParameterType)
  | some cluster => installDeployment env cluster env.DefaultNamespace "" "" [] w

/-- The hook `InstallIngressControllerPostHook`. -/
def InstallIngressControllerPostHook (env : Env) : Hook World := fun input w =>
  match input.asCluster with
  | none => (w, some wrongParameterType)
  | some cluster =>
    installDeployment env cluster env.DefaultNamespace
      "banzaicloud-stable/pipeline-cluster-ingress" "pipeline" [] w

/-- Modelled from the spec: `utils.WriteToFile(data, path)` is not part of the sources at hand;
the spec gives the durable file store one operation, `Write(path, bytes)`, returning an
error.  A write that succeeds makes `data` the content of `path`; a write that fails is
recorded and leaves the store as it was. -/
def WriteToFile (env : Env) (data : Bytes) (path : String) (w : World) : World × Option Err :=
  let w1 := w.emit (Event.WriteToFile data path)
  match env.WriteToFile (w.calls Kind.WriteToFile) with
  | some err => (w1, some err)
  | none => ({ w1 with files := Store.set path data w1.files }, none)

/-- The call `client.CoreV1().ConfigMaps("default").Get(configName, ...)`: the record and the
error.  The call fails when the environment says so and when no configmap of that name is
stored (not found); a failed call hands back the empty record.  A call that succeeds returns
the stored record, whose `Data` map is nil when the configmap has no data. -/
def ConfigMapsGet (env : Env) (configName : String) (w : World) : World × ConfigMap × Option Err :=
  let w1 := w.emit (Event.ConfigMapsGet configName)
  match env.ConfigMapsGet (w.calls Kind.ConfigMapsGet) with
  | some err => (w1, emptyConfigMap, some err)
  | none =>
    match Store.get configName w.configmaps with
    | none => (w1, emptyConfigMap, some ("configmap not found: " ++ configName))
    | some data => (w1, { Name := configName, Data := data }, none)

/-- The call `client.CoreV1().ConfigMaps("default").Update(configmap)`.  The call fails when
the environment says so and when no configmap of the name of the record is stored. -/
def ConfigMapsUpdate (env : Env) (configmap : ConfigMap) (w : World) : World × Option Err :=
  let w1 := w.emit (Event.ConfigMapsUpdate configmap.Name configmap.Data)
  match env.ConfigMapsUpdate (w.calls Kind.ConfigMapsUpdate) with
  | some err => (w1, some err)
  | none =>
    match Store.get configmap.Name w.configmaps with
    | none => (w1, some ("configmap not found: " ++ configmap.Name))
    | some _ =>
      ({ w1 with configmaps := Store.set configmap.Name configmap.Data w1.configmaps }, none)

/-- The function `saveKeysToConfigmap`.  The error of `Get` is assigned and never read: the
next statement is the assignment `configmap.Data[...] = ...`, which is a run-time panic when
the `Data` map is nil (after a failed `Get`, or for a configmap without data); the next
assignment to `err` is the result of `Update`. -/
def saveKeysToConfigmap (env : Env) (config : RestConfig) (configName clusterName : String)
    (w : World) : World × HookResult :=
  let w1 := w.emit Event.GetK8sInClusterConnection
  match env.GetK8sInClusterConnection (w.calls Kind.GetK8sInClusterConnection) with
  | some err => (w1, HookResult.returned (some err))
  | none =>
    match ConfigMapsGet env configName w1 with
    | (w2, configmap, _) =>
      match configmap.Data with
      | none => (w2, HookResult.panicked "assignment to entry in nil map")
      | some data =>
        let d1 := Store.set (clusterName ++ "_client-key-data.pem") config.KeyData data
        let d2 := Store.set (clusterName ++ "_client-certificate-data.pem") config.CertData d1
        let d3 := Store.set (clusterName ++ "_certificate-authority-data.pem") config.CAData d2
        match ConfigMapsUpdate env { Name := configmap.Name, Data := some d3 } w2 with
        | (w3, some err) => (w3, HookResult.returned (some err))
        | (w3, none) => (w3, HookResult.returned none)

/-- The function `PersistKubernetesKeys`.  It ends by returning its `error`, or by the
run-time panic of `saveKeysToConfigmap`. -/
def PersistKubernetesKeys (env : Env) (input : Input) (w : World) : World × HookResult :=
  match input.asCluster with
  | none => (w, HookResult.returned (some wrongParameterType))
  | some cluster =>
    let configPath := env.GetStateStorePath cluster.GetName
    match GetK8sConfig cluster w with
    | (w1, _, some err) => (w1, HookResult.returned (some err))
    | (w1, kubeConfig, none) =>
      match WriteToFile env kubeConfig (configPath ++ "/cluster.cfg") w1 with
      | (w2, some err) => (w2, HookResult.returned (some err))
      | (w2, none) =>
        match env.GetK8sClientConfig kubeConfig with
        | (_, some err) => (w2, HookResult.returned (some err))
        | (config, none) =>
          match WriteToFile env config.KeyData (configPath ++ "/client-key-data.pem") w2 with
          | (w3, some err) => (w3, HookResult.returned (some err))
          | (w3, none) =>
            match WriteToFile env config.CertData (configPath ++ "/client-certificate-data.pem") w3 with
            | (w4, some err) => (w4, HookResult.returned (some err))
            | (w4, none) =>
              match WriteToFile env config.CAData (configPath ++ "/certificate-authority-data.pem") w4 with
              | (w5, some err) => (w5, HookResult.returned (some err))
              | (w5, none) =>
                let configMapName := env.monitorConfigmap
                let configMapPath := env.monitorMountPath
                if configMapName ≠ "" ∧ configMapPath ≠ "" then
                  match saveKeysToConfigmap env config configMapName cluster.GetName w5 with
                  | (w6, HookResult.returned (some err)) => (w6, HookResult.returned (some err))
                  | (w6, HookResult.returned none) => (w6, HookResult.returned none)
                  | (w6, HookResult.panicked msg) => (w6, HookResult.panicked msg)
                else (w5, HookResult.returned none)

/-- A function that may end by a run-time panic, as an entry of the registry.  A hook of the
registry is a function that returns; the run that ends by a panic appears there with the
message of the panic in the place of the result. -/
def asHook (f : Input → World → World × HookResult) : Hook World := fun input w =>
  match f input w with
  | (w1, HookResult.returned err) => (w1, err)
  | (w1, HookResult.panicked msg) => (w1, some ("panic: " ++ msg))

/-- The hook `InstallClusterAutoscalerPostHook`. -/
def InstallClusterAutoscalerPostHook (env : Env) : Hook World := fun input w =>
  match input.asCluster with
  | none => (w, some wrongParameterType)
  | some cluster =>
    let nodeGroups : Option (List nodeGroup) :=
      if cluster.GetType = Amazon then some (env.getAmazonNodeGroups cluster)
      else if cluster.GetType = Azure then some (env.getAzureNodeGroups cluster)
      else none
    match nodeGroups with
    | none => (w, none)
    | some nodeGroups =>
      if nodeGroups.length = 0 then (w, none)
      else
        let values : Option autoscalingInfo :=
          if cluster.GetType = Amazon then some (env.createAutoscalingForAmazon cluster nodeGroups)
          else if cluster.GetType = Azure then some (env.createAutoscalingForAzure cluster nodeGroups)
          else none
        match values with
        | none => (w, none)
        | some values =>
          match env.yamlMarshal values with
          | (_, some err) => (w, some ("Error during values marshal: " ++ err))
          | (yamlValues, none) =>
            let releaseName := "autoscaler"
            installDeployment env cluster env.SystemNamespace env.autoSalerChart releaseName
              yamlValues w

/-- The function `UpdatePrometheus`: the error of `UpdatePrometheusConfig` is only logged. -/
def UpdatePrometheus (env : Env) (w : World) : World :=
  match env.UpdatePrometheusConfig (w.calls Kind.UpdatePrometheusConfig) with
  | some _ => w.emit Event.UpdatePrometheusConfig
  | none => w.emit Event.UpdatePrometheusConfig

/-- The hook `UpdatePrometheusPostHook`; its parameter is the blank identifier. -/
def UpdatePrometheusPostHook (env : Env) : Hook World := fun _ w =>
  (UpdatePrometheus env w, none)

/-- The readiness loop of `InstallHelmPostHook`, by the number of iterations left
(`retryAttempts + 1 - i`).  The result tells whether a helm client was obtained (the
`return nil` inside the loop) or the loop ran out. -/
def helmClientLoop (env : Env) (kubeConfig : Bytes) (retrySleepSeconds : Int) :
    Nat → World → World × Bool
  | 0, w => (w, false)
  | n + 1, w =>
    let w1 := w.emit (Event.GetHelmClient kubeConfig)
    match env.GetHelmClient (w.calls Kind.GetHelmClient) with
    | none => (w1, true)
    | some _ => helmClientLoop env kubeConfig retrySleepSeconds n (w1.emit (Event.Sleep retrySleepSeconds))

/-- The hook `InstallHelmPostHook`. -/
def InstallHelmPostHook (env : Env) : Hook World := fun input w =>
  match input.asCluster with
  | none => (w, some wrongParameterType)
  | some cluster =>
    let retryAttempts := env.helmRetryAttempt
    let retrySleepSeconds := env.helmRetrySleepSeconds
    let imageSpec := "gcr.io/kubernetes-helm/tiller:" ++ env.tillerVersion
    match GetK8sConfig cluster w with
    | (w1, _, some err) => (w1, some err)
    | (w1, kubeconfig, none) =>
      let w2 := w1.emit (Event.RetryHelmInstall "kube-system" "tiller" imageSpec kubeconfig)
      match env.RetryHelmInstall (w1.calls Kind.RetryHelmInstall) with
      | none =>
        match GetK8sConfig cluster w2 with
        | (w3, _, some err) => (w3, some err)
        | (w3, kubeConfig, none) =>
          match helmClientLoop env kubeConfig retrySleepSeconds (retryAttempts + 1).toNat w3 with
          | (w4, true) => (w4, none)
          | (w4, false) => (w4, none)
      | some _ => (w2, none)

/-- The registry `HookMap`, as the list of its entries. -/
def HookMap (env : Env) : List (String × Hook World) :=
  [ ("StoreKubeConfig", StoreKubeConfig env),
    ("PersistKubernetesKeys", asHook (PersistKubernetesKeys env)),
    ("UpdatePrometheusPostHook", UpdatePrometheusPostHook env),
    ("InstallHelmPostHook", InstallHelmPostHook env),
    ("InstallIngressControllerPostHook", InstallIngressControllerPostHook env),
    ("InstallClusterAutoscalerPostHook", InstallClusterAutoscalerPostHook env),
    ("InstallMonitoring", InstallMonitoring env),
    ("InstallLogging", InstallLogging env) ]

/-! ## Running hooks by name -/

/-- Lookup of a name in `HookMap`. -/
def lookupHook (env : Env) (name : String) : Option (Hook World) :=
  Store.get name (HookMap env)

/-- Modelled from the spec: the result of a run by names, which the sources at hand do not
declare: the batch ran, or a name was rejected as a caller error. -/
inductive RunOutcome
  | ran
  | unregisteredHook (name : String)
  deriving DecidableEq, Repr

/-- Modelled from the spec: the resolution of a list of names against `HookMap`, which the
sources at hand do not contain: the hooks, or the first name that is not registered. -/
def resolveHooks (env : Env) : List String → Except String (List (Hook World))
  | [] => Except.ok []
  | name :: rest =>
    match lookupHook env name with
    | none => Except.error name
    | some f =>
      match resolveHooks env rest with
      | Except.error bad => Except.error bad
      | Except.ok fs => Except.ok (f :: fs)

/-- Modelled from the spec: the Runner that takes hook names is not part of the sources at
hand (`RunPostHooks` takes the functions).  Spec 4.5: for each name, look up and invoke the
hook with the cluster handle, sequentially, in the given order, the error of every hook being
discarded; spec 3 and 8: an unregistered name is a caller error and is rejected distinctly
from a failure of a registered hook.  The names are looked up in `HookMap` and the hooks are
run by `RunPostHooks`. -/
def Run (env : Env) (names : List String) (cluster : CommonCluster) (w : World) :
    World × RunOutcome :=
  match resolveHooks env names with
  | Except.error bad => (w, RunOutcome.unregisteredHook bad)
  | Except.ok fs => (RunPostHooks fs cluster w, RunOutcome.ran)

/-! ## Instrumented hooks -/

/-- A hook that appends its position and its argument to a call log, then behaves as `f`.
The log is out of reach of `f`. -/
def traced {σ : Type} (i : Nat) (f : Hook σ) : Hook (σ × List (Nat × Input)) := fun input st =>
  (((f input st.1).1, st.2 ++ [(i, input)]), (f input st.1).2)

/-- The hooks of a list, each instrumented with its position (counted from `n`). -/
def instrumentFrom {σ : Type} : Nat → List (Hook σ) → List (Hook (σ × List (Nat × Input)))
  | _, [] => []
  | n, f :: fs => traced n f :: instrumentFrom (n + 1) fs

/-! ## Traces of the polling loop -/

/-- The calls of `m` failed download attempts: a download and a sleep, `m` times. -/
def failedAttempts (retrySleepTime : Int) : Nat → List Event
  | 0 => []
  | m + 1 => Event.DownloadK8sConfig :: Event.Sleep retrySleepTime :: failedAttempts retrySleepTime m

/-- A cluster whose `DownloadK8sConfig` always fails and whose `GetK8sConfig` succeeds. -/
def failingCluster : CommonCluster :=
  { GetName := "c1", GetOrganizationId := 1, GetType := Amazon,
    DownloadK8sConfig := fun _ => ([], some "not ready"),
    GetK8sConfig := fun _ => ([1, 2, 3], none) }

/-- A cluster whose `DownloadK8sConfig` fails twice and then succeeds. -/
def slowCluster : CommonCluster :=
  { GetName := "c1", GetOrganizationId := 1, GetType := "google",
    DownloadK8sConfig := fun k => if k < 2 then ([], some "not ready") else ([7, 7], none),
    GetK8sConfig := fun _ => ([1, 2, 3], none) }

/-- An environment in which every collaborator succeeds; three download attempts, no
configmap mirror. -/
def quietEnv : Env :=
  { configRetryCount := 3, configRetrySleep := 5, helmRetryAttempt := 2,
    helmRetrySleepSeconds := 1, tillerVersion := "v2.7.2",
    monitorConfigmap := "", monitorMountPath := "",
    DefaultNamespace := "default", SystemNamespace := "kube-system",
    autoSalerChart := "banzaicloud-stable/cluster-autoscaler",
    GetStateStorePath := fun name => "./statestore/" ++ name,
    GetK8sClientConfig := fun b => ({ KeyData := 1 :: b, CertData := 2 :: b, CAData := 3 :: b }, none),
    GenerateHelmRepoEnv := fun org => org,
    getAmazonNodeGroups := fun _ => [],
    getAzureNodeGroups := fun _ => [],
    createAutoscalingForAmazon := fun _ gs => { Provider := Amazon, NodeGroups := gs, Hints := [] },
    createAutoscalingForAzure := fun _ gs => { Provider := Azure, NodeGroups := gs, Hints := [] },
    yamlMarshal := fun _ => ([], none),
    StoreKubernetesConfig := fun _ => none,
    WriteToFile := fun _ => none,
    GetK8sInClusterConnection := fun _ => none,
    ConfigMapsGet := fun _ => none,
    ConfigMapsUpdate := fun _ => none,
    GetOrganizationById := fun _ => ("org", none),
    CreateDeployment := fun _ => none,
    RetryHelmInstall := fun _ => none,
    GetHelmClient := fun _ => none,
    UpdatePrometheusConfig := fun _ => none }

/-- The world before any call. -/
def World.initial : World := { trace := [], files := [], configmaps := [] }

/-- An environment with a retry count of zero. -/
def zeroRetryEnv : Env := { quietEnv with configRetryCount := 0 }

/-- An environment with a negative retry count. -/
def negativeRetryEnv : Env := { quietEnv with configRetryCount := -1 }

/-- An environment in which the helm client never becomes available. -/
def noTillerEnv : Env := { quietEnv with GetHelmClient := fun _ => some "tiller not ready" }

/-- Three hooks on a state that nobody reads; the second one fails. -/
def hooksABC : List (Hook Unit) :=
  [fun _ s => (s, none), fun _ s => (s, some "B failed"), fun _ s => (s, none)]

/-- A cluster whose access configuration is available at once. -/
def readyCluster : CommonCluster :=
  { GetName := "c1", GetOrganizationId := 1, GetType := Amazon,
    DownloadK8sConfig := fun _ => ([1, 2, 3], none),
    GetK8sConfig := fun _ => ([1, 2, 3], none) }

/-- An environment with a configmap mirror in which every collaborator succeeds. -/
def mirrorEnv : Env :=
  { quietEnv with monitorConfigmap := "monitor", monitorMountPath := "/mnt" }

/-- An environment with a configmap mirror in which fetching the configmap fails and every
other collaborator succeeds. -/
def getFailsEnv : Env :=
  { mirrorEnv with ConfigMapsGet := fun _ => some "get failed" }

/-- A world in which the configmap `monitor` exists and holds an entry of another cluster. -/
def mirrorWorld : World :=
  { trace := [], files := [],
    configmaps := [("monitor", some [("c0_client-key-data.pem", [9])])] }

/-- The file store after the four writes of a successful `PersistKubernetesKeys`. -/
def persistedFiles (env : Env) (c : CommonCluster) (kubeConfig : Bytes)
    (files : List (String × Bytes)) : List (String × Bytes) :=
  Store.set (env.GetStateStorePath c.GetName ++ "/certificate-authority-data.pem")
    (env.GetK8sClientConfig kubeConfig).1.CAData
    (Store.set (env.GetStateStorePath c.GetName ++ "/client-certificate-data.pem")
      (env.GetK8sClientConfig kubeConfig).1.CertData
      (Store.set (env.GetStateStorePath c.GetName ++ "/client-key-data.pem")
        (env.GetK8sClientConfig kubeConfig).1.KeyData
        (Store.set (env.GetStateStorePath c.GetName ++ "/cluster.cfg") kubeConfig files)))

/-- The three entries of a cluster written into the data of a configmap. -/
def mirroredData (c : CommonCluster) (config : RestConfig) (data : List (String × Bytes)) :
    List (String × Bytes) :=
  Store.set (c.GetName ++ "_certificate-authority-data.pem") config.CAData
    (Store.set (c.GetName ++ "_client-certificate-data.pem") config.CertData
      (Store.set (c.GetName ++ "_client-key-data.pem") config.KeyData data))

/-- The configmap store after a successful `PersistKubernetesKeys`: with a configmap mirror
configured, the three entries of the cluster are written into the data of the configured
configmap (which is stored, with a non-nil `Data` map, when the run succeeds). -/
def persistedConfigmaps (env : Env) (c : CommonCluster) (kubeConfig : Bytes)
    (configmaps : List (String × Option (List (String × Bytes)))) :
    List (String × Option (List (String × Bytes))) :=
  if env.monitorConfigmap ≠ "" ∧ env.monitorMountPath ≠ "" then
    match Store.get env.monitorConfigmap configmaps with
    | some (some data) =>
      Store.set env.monitorConfigmap
        (some (mirroredData c (env.GetK8sClientConfig kubeConfig).1 data)) configmaps
    | _ => configmaps
  else configmaps

/-! ## `objectstore/amazon.go` -/

namespace ObjectStore

/-- A row of the table of `ManagedAmazonBucket`. -/
structure ManagedAmazonBucket where
  ID : Nat
  UserID : Nat
  Name : String
  Region : String
  deriving DecidableEq, Repr

/-- The receiver `AmazonObjectStore`; `user` is a pointer (`none` is nil), given by the
identifier of the user. -/
structure AmazonObjectStore where
  region : String
  user : Option Nat
  deriving DecidableEq, Repr

/-- A call on the S3 client. -/
inductive S3Call
  | CreateBucket (bucket : String)
  | WaitUntilBucketExists (bucket : String)
  deriving DecidableEq, Repr

/-- The state outside `CreateBucket`: the rows of the bucket table, the next primary key the
database hands out, and the calls made on the S3 client. -/
structure State where
  db : List ManagedAmazonBucket
  nextID : Nat
  s3 : List S3Call
  deriving DecidableEq, Repr

/-- The answers of the collaborators of `CreateBucket`; each is called at most once. -/
structure Answers where
  /-- Session creation `session.NewSession` in `createS3Client`. -/
  NewSession : Option Err
  /-- Database call `db.Save`. -/
  Save : Option Err
  /-- S3 call `svc.CreateBucket`. -/
  CreateBucket : Option Err
  /-- S3 call `svc.WaitUntilBucketExists`. -/
  WaitUntilBucketExists : Option Err
  /-- Database call `db.Find`. -/
  Find : Option Err
  /-- Database call `db.Delete`. -/
  Delete : Option Err

/-- How a Go call ends: it returns its `error` result, or it stops with a run-time error. -/
inductive Outcome
  | returned (err : Option Err)
  | nilDereference
  deriving DecidableEq, Repr

/-- The function `persistToDb`: `db.Save` of a new row (the name column has a unique index).
The dereference `*user` of a nil pointer is a run-time error. -/
def persistToDb (a : Answers) (bucketName : String) (user : Option Nat) (region : String)
    (st : State) : State × Outcome :=
  match user with
  | none => (st, Outcome.nilDereference)
  | some uid =>
    match a.Save with
    | some err => (st, Outcome.returned (some err))
    | none =>
      if st.db.any (fun r => decide (r.Name = bucketName)) then
        (st, Outcome.returned (some "UNIQUE constraint failed: bucketName"))
      else
        ({ st with db := st.db ++ [{ ID := st.nextID, UserID := uid, Name := bucketName, Region := region }],
                   nextID := st.nextID + 1 },
          Outcome.returned none)

/-- The rows that `db.Find(bucketDesc, ManagedAmazonBucket{Name: bucketName})` selects: gorm
leaves a zero-valued field out of the condition, so the empty name selects every row. -/
def findRows (bucketName : String) (db : List ManagedAmazonBucket) : List ManagedAmazonBucket :=
  if bucketName = "" then db else db.filter (fun r => decide (r.Name = bucketName))

/-- The function `deleteFromDb`: find the row of the name, then delete it by primary key.
The selected rows are scanned one after the other into the one struct `bucketDesc`, which
ends up holding the last of them; no selected row is an error of `Find`. -/
def deleteFromDb (a : Answers) (bucketName : String) (st : State) : State × Option Err :=
  match a.Find, (findRows bucketName st.db).getLast? with
  | some _, _ => (st, some ("could not find bucketName " ++ bucketName ++ " in DB"))
  | none, none => (st, some ("could not find bucketName " ++ bucketName ++ " in DB"))
  | none, some bucketDesc =>
    match a.Delete with
    | some err => (st, some err)
    | none => ({ st with db := st.db.filter (fun r => decide (r.ID ≠ bucketDesc.ID)) }, none)

/-- The method `AmazonObjectStore.CreateBucket`.  On a failure of S3, the argument
`deleteFromDb(bucketName).Error()` of `errors.Wrap` is evaluated first: the method `Error`
is called on the result of `deleteFromDb`, which is a run-time error when that result is nil;
the result of `errors.Wrap` is dropped. -/
def CreateBucket (b : AmazonObjectStore) (a : Answers) (bucketName : String) (st : State) :
    State × Outcome :=
  match a.NewSession with
  | some err => (st, Outcome.returned (some err))
  | none =>
    match persistToDb a bucketName b.user b.region st with
    | (st1, Outcome.nilDereference) => (st1, Outcome.nilDereference)
    | (st1, Outcome.returned (some err)) => (st1, Outcome.returned (some err))
    | (st1, Outcome.returned none) =>
      let st2 := { st1 with s3 := st1.s3 ++ [S3Call.CreateBucket bucketName] }
      match a.CreateBucket with
      | some err =>
        match deleteFromDb a bucketName st2 with
        | (st3, none) => (st3, Outcome.nilDereference)
        | (st3, some _) => (st3, Outcome.returned (some err))
      | none =>
        let st3 := { st2 with s3 := st2.s3 ++ [S3Call.WaitUntilBucketExists bucketName] }
        match a.WaitUntilBucketExists with
        | some err => (st3, Outcome.returned (some err))
        | none => (st3, Outcome.returned none)

/-- Answers in which only the S3 call `CreateBucket` fails. -/
def s3FailsAnswers : Answers :=
  { NewSession := none, Save := none, CreateBucket := some "BucketAlreadyExists",
    WaitUntilBucketExists := none, Find := none, Delete := none }

/-- An empty bucket table, no S3 call made. -/
def State.initial : State := { db := [], nextID := 1, s3 := [] }

end ObjectStore

/-! ## Store lemmas -/

theorem Store.get_set_self {β : Type} (k : String) (v : β) (l : List (String × β)) :
    Store.get k (Store.set k v l) = some v := by
  induction l with
  | nil => simp [Store.set, Store.get]
  | cons p rest ih =>
    obtain ⟨k', v'⟩ := p
    by_cases h : k' = k
    · simp [Store.set, Store.get, h]
    · simp [Store.set, Store.get, h, ih]

theorem Store.get_set_ne {β : Type} (k k' : String) (v : β) (l : List (String × β))
    (hne : k' ≠ k) : Store.get k (Store.set k' v l) = Store.get k l := by
  induction l with
  | nil => simp [Store.set, Store.get, hne]
  | cons p rest ih =>
    obtain ⟨k2, v2⟩ := p
    by_cases h : k2 = k'
    · subst h
      simp [Store.set, Store.get, hne]
    · by_cases h2 : k2 = k
      · subst h2
        simp [Store.set, Store.get, h]
      · simp [Store.set, Store.get, h, h2, ih]

theorem Store.set_of_get {β : Type} (k : String) (v : β) (l : List (String × β))
    (hget : Store.get k l = some v) : Store.set k v l = l := by
  induction l with
  | nil => simp [Store.get] at hget
  | cons p rest ih =>
    obtain ⟨k', v'⟩ := p
    by_cases h : k' = k
    · simp [Store.get, h] at hget
      simp [Store.set, h, hget]
    · simp [Store.get, h] at hget
      simp [Store.set, h, ih hget]

theorem append_ne_append (a b c : String) (h : b ≠ c) : a ++ b ≠ a ++ c := by
  intro heq
  apply h
  have h1 : (a ++ b).data = (a ++ c).data := by rw [heq]
  simp only [String.data_append] at h1
  exact String.ext (List.append_cancel_left h1)

/-- Writing four entries with distinct keys a second time changes nothing. -/
theorem Store.set4_twice {β : Type} (k1 k2 k3 k4 : String) (v1 v2 v3 v4 : β)
    (l : List (String × β)) (h12 : k1 ≠ k2) (h13 : k1 ≠ k3) (h14 : k1 ≠ k4) (h23 : k2 ≠ k3)
    (h24 : k2 ≠ k4) (h34 : k3 ≠ k4) :
    Store.set k4 v4 (Store.set k3 v3 (Store.set k2 v2 (Store.set k1 v1
        (Store.set k4 v4 (Store.set k3 v3 (Store.set k2 v2 (Store.set k1 v1 l)))))))
      = Store.set k4 v4 (Store.set k3 v3 (Store.set k2 v2 (Store.set k1 v1 l))) := by
  have e1 : Store.set k1 v1 (Store.set k4 v4 (Store.set k3 v3 (Store.set k2 v2 (Store.set k1 v1 l))))
      = Store.set k4 v4 (Store.set k3 v3 (Store.set k2 v2 (Store.set k1 v1 l))) := by
    apply Store.set_of_get
    rw [Store.get_set_ne _ _ _ _ (Ne.symm h14), Store.get_set_ne _ _ _ _ (Ne.symm h13),
      Store.get_set_ne _ _ _ _ (Ne.symm h12), Store.get_set_self]
  have e2 : Store.set k2 v2 (Store.set k4 v4 (Store.set k3 v3 (Store.set k2 v2 (Store.set k1 v1 l))))
      = Store.set k4 v4 (Store.set k3 v3 (Store.set k2 v2 (Store.set k1 v1 l))) := by
    apply Store.set_of_get
    rw [Store.get_set_ne _ _ _ _ (Ne.symm h24), Store.get_set_ne _ _ _ _ (Ne.symm h23),
      Store.get_set_self]
  have e3 : Store.set k3 v3 (Store.set k4 v4 (Store.set k3 v3 (Store.set k2 v2 (Store.set k1 v1 l))))
      = Store.set k4 v4 (Store.set k3 v3 (Store.set k2 v2 (Store.set k1 v1 l))) := by
    apply Store.set_of_get
    rw [Store.get_set_ne _ _ _ _ (Ne.symm h34), Store.get_set_self]
  have e4 : Store.set k4 v4 (Store.set k4 v4 (Store.set k3 v3 (Store.set k2 v2 (Store.set k1 v1 l))))
      = Store.set k4 v4 (Store.set k3 v3 (Store.set k2 v2 (Store.set k1 v1 l))) := by
    apply Store.set_of_get
    rw [Store.get_set_self]
  rw [e1, e2, e3, e4]

/-- Writing three entries with distinct keys a second time changes nothing. -/
theorem Store.set3_twice {β : Type} (k1 k2 k3 : String) (v1 v2 v3 : β)
    (l : List (String × β)) (h12 : k1 ≠ k2) (h13 : k1 ≠ k3) (h23 : k2 ≠ k3) :
    Store.set k3 v3 (Store.set k2 v2 (Store.set k1 v1
        (Store.set k3 v3 (Store.set k2 v2 (Store.set k1 v1 l)))))
      = Store.set k3 v3 (Store.set k2 v2 (Store.set k1 v1 l)) := by
  have e1 : Store.set k1 v1 (Store.set k3 v3 (Store.set k2 v2 (Store.set k1 v1 l)))
      = Store.set k3 v3 (Store.set k2 v2 (Store.set k1 v1 l)) := by
    apply Store.set_of_get
    rw [Store.get_set_ne _ _ _ _ (Ne.symm h13), Store.get_set_ne _ _ _ _ (Ne.symm h12),
      Store.get_set_self]
  have e2 : Store.set k2 v2 (Store.set k3 v3 (Store.set k2 v2 (Store.set k1 v1 l)))
      = Store.set k3 v3 (Store.set k2 v2 (Store.set k1 v1 l)) := by
    apply Store.set_of_get
    rw [Store.get_set_ne _ _ _ _ (Ne.symm h23), Store.get_set_self]
  have e3 : Store.set k3 v3 (Store.set k3 v3 (Store.set k2 v2 (Store.set k1 v1 l)))
      = Store.set k3 v3 (Store.set k2 v2 (Store.set k1 v1 l)) := by
    apply Store.set_of_get
    rw [Store.get_set_self]
  rw [e1, e2, e3]

/-! ## Counting calls -/

theorem countKind_append (k : Kind) (t u : List Event) :
    countKind k (t ++ u) = countKind k t + countKind k u := by
  simp [countKind, List.filter_append]

theorem calls_emit (w : World) (e : Event) (k : Kind) :
    (w.emit e).calls k = w.calls k + (if e.kind = k then 1 else 0) := by
  simp only [World.calls, World.emit, countKind_append]
  by_cases h : e.kind = k <;> simp [countKind, h]

theorem countKind_cons (k : Kind) (e : Event) (t : List Event) :
    countKind k (e :: t) = (if e.kind = k then 1 else 0) + countKind k t := by
  by_cases h : e.kind = k
  · simp [countKind, List.filter_cons, h]
    omega
  · simp [countKind, List.filter_cons, h]

theorem countKind_failedAttempts_download (s : Int) (m : Nat) :
    countKind Kind.DownloadK8sConfig (failedAttempts s m) = m := by
  induction m with
  | zero => rfl
  | succ m ih =>
    rw [failedAttempts, countKind_cons, countKind_cons, ih]
    simp [Event.kind]
    omega

theorem countKind_failedAttempts_sleep (s : Int) (m : Nat) :
    countKind Kind.Sleep (failedAttempts s m) = m := by
  induction m with
  | zero => rfl
  | succ m ih =>
    rw [failedAttempts, countKind_cons, countKind_cons, ih]
    simp [Event.kind]
    omega

theorem countKind_failedAttempts_store (s : Int) (m : Nat) :
    countKind Kind.StoreKubernetesConfig (failedAttempts s m) = 0 := by
  induction m with
  | zero => rfl
  | succ m ih =>
    rw [failedAttempts, countKind_cons, countKind_cons, ih]
    simp [Event.kind]

/-! ## The polling loop -/

/-- With `m` failing downloads followed by a successful one, and more than `m` iterations
left, the loop stops at the successful download. -/
theorem pollingLoop_fail_then_ok (c : CommonCluster) (s : Int) (m : Nat) :
    ∀ (n : Nat) (w : World) (kc : Bytes) (err : Option Err), m < n →
      (∀ k, k < m → (c.DownloadK8sConfig (w.calls Kind.DownloadK8sConfig + k)).2 ≠ none) →
      (c.DownloadK8sConfig (w.calls Kind.DownloadK8sConfig + m)).2 = none →
      pollingLoop c s n w kc err =
        ({ w with trace := w.trace ++ (failedAttempts s m ++ [Event.DownloadK8sConfig]) },
          (c.DownloadK8sConfig (w.calls Kind.DownloadK8sConfig + m)).1, none) := by
  induction m with
  | zero =>
    intro n w kc err hn _ hok
    obtain ⟨n, rfl⟩ : ∃ n', n = n' + 1 := ⟨n - 1, by omega⟩
    simp only [Nat.add_zero] at hok
    simp [pollingLoop, hok, failedAttempts, World.emit]
  | succ m ih =>
    intro n w kc err hn hfail hok
    obtain ⟨n, rfl⟩ : ∃ n', n = n' + 1 := ⟨n - 1, by omega⟩
    have h0 := hfail 0 (by omega)
    simp only [Nat.add_zero] at h0
    obtain ⟨e, he⟩ := Option.ne_none_iff_exists'.mp h0
    have hc : ((w.emit Event.DownloadK8sConfig).emit (Event.Sleep s)).calls Kind.DownloadK8sConfig
        = w.calls Kind.DownloadK8sConfig + 1 := by
      simp [calls_emit, Event.kind]
    have hfail' : ∀ k, k < m →
        (c.DownloadK8sConfig (((w.emit Event.DownloadK8sConfig).emit (Event.Sleep s)).calls
          Kind.DownloadK8sConfig + k)).2 ≠ none := by
      intro k hk
      have := hfail (k + 1) (by omega)
      rw [hc]
      rwa [show w.calls Kind.DownloadK8sConfig + 1 + k = w.calls Kind.DownloadK8sConfig + (k + 1)
        by omega]
    have hok' : (c.DownloadK8sConfig (((w.emit Event.DownloadK8sConfig).emit (Event.Sleep s)).calls
          Kind.DownloadK8sConfig + m)).2 = none := by
      rw [hc]
      rwa [show w.calls Kind.DownloadK8sConfig + 1 + m = w.calls Kind.DownloadK8sConfig + (m + 1)
        by omega]
    have := ih n ((w.emit Event.DownloadK8sConfig).emit (Event.Sleep s))
      (c.DownloadK8sConfig (w.calls Kind.DownloadK8sConfig)).1 (some e) (by omega) hfail' hok'
    simp only [pollingLoop, he]
    rw [this, hc]
    simp [World.emit, failedAttempts, Nat.add_assoc, Nat.add_comm 1 m]

/-- With `n` iterations left and `n` failing downloads, the loop runs out after `n`
downloads and `n` sleeps, holding the result of the last download. -/
theorem pollingLoop_all_fail (c : CommonCluster) (s : Int) (n : Nat) :
    ∀ (w : World) (kc : Bytes) (err : Option Err),
      (∀ k, k < n → (c.DownloadK8sConfig (w.calls Kind.DownloadK8sConfig + k)).2 ≠ none) →
      pollingLoop c s n w kc err =
        ({ w with trace := w.trace ++ failedAttempts s n },
          if n = 0 then (kc, err)
          else c.DownloadK8sConfig (w.calls Kind.DownloadK8sConfig + (n - 1))) := by
  induction n with
  | zero =>
    intro w kc err _
    simp [pollingLoop, failedAttempts]
  | succ n ih =>
    intro w kc err hfail
    have h0 := hfail 0 (by omega)
    simp only [Nat.add_zero] at h0
    obtain ⟨e, he⟩ := Option.ne_none_iff_exists'.mp h0
    have hc : ((w.emit Event.DownloadK8sConfig).emit (Event.Sleep s)).calls Kind.DownloadK8sConfig
        = w.calls Kind.DownloadK8sConfig + 1 := by
      simp [calls_emit, Event.kind]
    have hfail' : ∀ k, k < n →
        (c.DownloadK8sConfig (((w.emit Event.DownloadK8sConfig).emit (Event.Sleep s)).calls
          Kind.DownloadK8sConfig + k)).2 ≠ none := by
      intro k hk
      have := hfail (k + 1) (by omega)
      rw [hc]
      rwa [show w.calls Kind.DownloadK8sConfig + 1 + k = w.calls Kind.DownloadK8sConfig + (k + 1)
        by omega]
    have := ih ((w.emit Event.DownloadK8sConfig).emit (Event.Sleep s))
      (c.DownloadK8sConfig (w.calls Kind.DownloadK8sConfig)).1 (some e) hfail'
    simp only [pollingLoop, he]
    rw [this, hc]
    by_cases hn : n = 0
    · subst hn
      simp [World.emit, failedAttempts, ← he]
    · have h1 : w.calls Kind.DownloadK8sConfig + 1 + (n - 1) = w.calls Kind.DownloadK8sConfig + n := by
        omega
      simp [World.emit, failedAttempts, hn, h1]

/-! ## Claims about `pollingKubernetesConfig` and `StoreKubeConfig` -/

/-- C1: with a configured retry count `N ≥ 1` and a cluster whose `DownloadK8sConfig` fails on
its first `N - 1` calls and succeeds on the `N`-th, `pollingKubernetesConfig` makes exactly
`N` download calls and `N - 1` sleeps (a sleep after each failed download, then the last
download) and returns the bytes of the `N`-th call with a nil error. -/
theorem pollingKubernetesConfig_fails_then_succeeds (env : Env) (c : CommonCluster) (w : World)
    (N : Nat) (hN : 1 ≤ N) (hcfg : env.configRetryCount = (N : Int))
    (hfail : ∀ k, k + 1 < N →
      (c.DownloadK8sConfig (w.calls Kind.DownloadK8sConfig + k)).2 ≠ none)
    (hok : (c.DownloadK8sConfig (w.calls Kind.DownloadK8sConfig + (N - 1))).2 = none) :
    (pollingKubernetesConfig env c w).1.calls Kind.DownloadK8sConfig
        = w.calls Kind.DownloadK8sConfig + N
      ∧ (pollingKubernetesConfig env c w).1.calls Kind.Sleep = w.calls Kind.Sleep + (N - 1)
      ∧ (pollingKubernetesConfig env c w).1.trace
        = w.trace ++ (failedAttempts env.configRetrySleep (N - 1) ++ [Event.DownloadK8sConfig])
      ∧ (pollingKubernetesConfig env c w).2
        = ((c.DownloadK8sConfig (w.calls Kind.DownloadK8sConfig + (N - 1))).1, none) := by
  have hrun := pollingLoop_fail_then_ok c env.configRetrySleep (N - 1) N w [] none (by omega)
    (fun k hk => hfail k (by omega)) hok
  have hp : pollingKubernetesConfig env c w
      = ({ w with trace := w.trace ++ (failedAttempts env.configRetrySleep (N - 1)
            ++ [Event.DownloadK8sConfig]) },
          (c.DownloadK8sConfig (w.calls Kind.DownloadK8sConfig + (N - 1))).1, none) := by
    rw [pollingKubernetesConfig, hcfg, Int.toNat_ofNat]
    exact hrun
  rw [hp]
  refine ⟨?_, ?_, rfl, rfl⟩
  · simp only [World.calls, countKind_append, countKind_failedAttempts_download]
    simp [countKind_cons, Event.kind, countKind]
    omega
  · simp only [World.calls, countKind_append, countKind_failedAttempts_sleep]
    simp [countKind_cons, Event.kind, countKind]

/-- Witness of C1: three configured attempts, a cluster that fails twice and then succeeds. -/
theorem pollingKubernetesConfig_fails_then_succeeds_witness :
    (pollingKubernetesConfig quietEnv slowCluster World.initial).1.calls Kind.DownloadK8sConfig
        = World.initial.calls Kind.DownloadK8sConfig + 3
      ∧ (pollingKubernetesConfig quietEnv slowCluster World.initial).1.calls Kind.Sleep
        = World.initial.calls Kind.Sleep + (3 - 1)
      ∧ (pollingKubernetesConfig quietEnv slowCluster World.initial).1.trace
        = World.initial.trace
          ++ (failedAttempts quietEnv.configRetrySleep (3 - 1) ++ [Event.DownloadK8sConfig])
      ∧ (pollingKubernetesConfig quietEnv slowCluster World.initial).2
        = ((slowCluster.DownloadK8sConfig
            (World.initial.calls Kind.DownloadK8sConfig + (3 - 1))).1, none) :=
  pollingKubernetesConfig_fails_then_succeeds quietEnv slowCluster World.initial 3 (by decide) rfl
    (by
      intro k hk
      have hk2 : k < 2 := by omega
      have h0 : World.initial.calls Kind.DownloadK8sConfig = 0 := rfl
      simp [slowCluster, h0, hk2])
    (by decide)

/-- Counterexample to C2: with a retry count of 0 (or -1) and a cluster whose download always
fails, no download is attempted, `pollingKubernetesConfig` returns nil bytes and a nil error,
and `StoreKubeConfig` goes on to call `StoreKubernetesConfig`. -/
theorem pollingKubernetesConfig_zero_retries_returns_nil :
    pollingKubernetesConfig zeroRetryEnv failingCluster World.initial = (World.initial, [], none)
      ∧ pollingKubernetesConfig negativeRetryEnv failingCluster World.initial
        = (World.initial, [], none)
      ∧ StoreKubeConfig zeroRetryEnv (Input.cluster failingCluster) World.initial
        = ({ trace := [Event.StoreKubernetesConfig []], files := [], configmaps := [] }, none) := by
  refine ⟨rfl, rfl, rfl⟩

/-- C2, amended: with a cluster whose `DownloadK8sConfig` always fails,
`pollingKubernetesConfig` makes exactly `max N 0` download attempts for a configured retry
count `N`; when `N ≥ 1` it returns the result of the last attempt, whose error is not nil, and
`StoreKubeConfig` returns that error without calling `StoreKubernetesConfig`. -/
theorem pollingKubernetesConfig_always_failing (env : Env) (c : CommonCluster) (w : World)
    (hfail : ∀ k, (c.DownloadK8sConfig k).2 ≠ none) :
    (pollingKubernetesConfig env c w).1.calls Kind.DownloadK8sConfig
        = w.calls Kind.DownloadK8sConfig + env.configRetryCount.toNat
      ∧ (1 ≤ env.configRetryCount →
          (pollingKubernetesConfig env c w).2
              = c.DownloadK8sConfig (w.calls Kind.DownloadK8sConfig + (env.configRetryCount.toNat - 1))
            ∧ (pollingKubernetesConfig env c w).2.2 ≠ none
            ∧ (StoreKubeConfig env (Input.cluster c) w).2 = (pollingKubernetesConfig env c w).2.2
            ∧ (StoreKubeConfig env (Input.cluster c) w).1.calls Kind.StoreKubernetesConfig
              = w.calls Kind.StoreKubernetesConfig) := by
  have hp := pollingLoop_all_fail c env.configRetrySleep env.configRetryCount.toNat w [] none
    (fun k _ => hfail _)
  have hp2 : pollingKubernetesConfig env c w = _ := hp
  refine ⟨?_, ?_⟩
  · rw [hp2]
    simp [World.calls, countKind_append, countKind_failedAttempts_download]
  · intro h1
    have hpos : env.configRetryCount.toNat ≠ 0 := by omega
    have hres : (pollingKubernetesConfig env c w).2
        = c.DownloadK8sConfig (w.calls Kind.DownloadK8sConfig + (env.configRetryCount.toNat - 1)) := by
      rw [hp2]
      simp [hpos]
    have hne : (pollingKubernetesConfig env c w).2.2 ≠ none := by
      rw [hres]
      exact hfail _
    refine ⟨hres, hne, ?_, ?_⟩
    · obtain ⟨e, he⟩ := Option.ne_none_iff_exists'.mp hne
      simp only [StoreKubeConfig, Input.asCluster]
      rcases hq : pollingKubernetesConfig env c w with ⟨w1, kc, r⟩
      rw [hq] at he
      simp only at he
      subst he
      rfl
    · obtain ⟨e, he⟩ := Option.ne_none_iff_exists'.mp hne
      simp only [StoreKubeConfig, Input.asCluster]
      have hw : (pollingKubernetesConfig env c w).1.calls Kind.StoreKubernetesConfig
          = w.calls Kind.StoreKubernetesConfig := by
        rw [hp2]
        simp [World.calls, countKind_append, countKind_failedAttempts_store]
      rcases hq : pollingKubernetesConfig env c w with ⟨w1, kc, r⟩
      rw [hq] at he hw
      simp only at he hw
      subst he
      exact hw

/-- Witness of the amended C2: three configured attempts on a cluster that never answers. -/
theorem pollingKubernetesConfig_always_failing_witness :
    (pollingKubernetesConfig quietEnv failingCluster World.initial).1.calls Kind.DownloadK8sConfig
        = World.initial.calls Kind.DownloadK8sConfig + quietEnv.configRetryCount.toNat
      ∧ (1 ≤ quietEnv.configRetryCount →
          (pollingKubernetesConfig quietEnv failingCluster World.initial).2
              = failingCluster.DownloadK8sConfig
                (World.initial.calls Kind.DownloadK8sConfig + (quietEnv.configRetryCount.toNat - 1))
            ∧ (pollingKubernetesConfig quietEnv failingCluster World.initial).2.2 ≠ none
            ∧ (StoreKubeConfig quietEnv (Input.cluster failingCluster) World.initial).2
              = (pollingKubernetesConfig quietEnv failingCluster World.initial).2.2
            ∧ (StoreKubeConfig quietEnv (Input.cluster failingCluster) World.initial).1.calls
                Kind.StoreKubernetesConfig
              = World.initial.calls Kind.StoreKubernetesConfig) :=
  pollingKubernetesConfig_always_failing quietEnv failingCluster World.initial
    (by intro k; simp [failingCluster])

/-! ## Claims about `RunPostHooks` and the registry -/

theorem RunPostHooks_instrumentFrom {σ : Type} (c : CommonCluster) (fs : List (Hook σ)) :
    ∀ (n : Nat) (s : σ) (log : List (Nat × Input)),
      RunPostHooks (instrumentFrom n fs) c (s, log)
        = (RunPostHooks fs c s,
            log ++ (List.range' n fs.length).map (fun i => (i, Input.cluster c))) := by
  induction fs with
  | nil =>
    intro n s log
    simp [RunPostHooks, instrumentFrom]
  | cons f fs ih =>
    intro n s log
    have h := ih (n + 1) (f (Input.cluster c) s).1 (log ++ [(n, Input.cluster c)])
    simp only [RunPostHooks] at h
    simp only [RunPostHooks, instrumentFrom, List.foldl_cons, traced, List.length_cons]
    rw [h]
    simp [List.range'_succ]

/-- C3: `RunPostHooks` calls every hook of the list exactly once, with the created cluster,
in list order, whatever the hooks return: when each hook is instrumented to log its position
and its argument, the log gains the positions `0, 1, ..., length - 1` in this order, each with
the cluster, and the state is the one the plain hooks produce. -/
theorem RunPostHooks_invokes_each_hook_once_in_order {σ : Type} (fs : List (Hook σ))
    (c : CommonCluster) (s : σ) (log : List (Nat × Input)) :
    RunPostHooks (instrumentFrom 0 fs) c (s, log)
      = (RunPostHooks fs c s,
          log ++ (List.range fs.length).map (fun i => (i, Input.cluster c))) := by
  rw [RunPostHooks_instrumentFrom, List.range_eq_range']

/-- The hooks A, B, C, of which B fails: the calls are A, B, C. -/
theorem RunPostHooks_hooksABC (c : CommonCluster) :
    RunPostHooks (instrumentFrom 0 hooksABC) c ((), [])
      = ((), [(0, Input.cluster c), (1, Input.cluster c), (2, Input.cluster c)]) := rfl

theorem lookupHook_unregistered (env : Env) (name : String)
    (h : name ∉ (HookMap env).map Prod.fst) : lookupHook env name = none := by
  simp only [HookMap, List.map_cons, List.map_nil, List.mem_cons, List.mem_singleton,
    List.not_mem_nil, or_false, not_or] at h
  obtain ⟨h1, h2, h3, h4, h5, h6, h7, h8⟩ := h
  simp [lookupHook, HookMap, Store.get, Ne.symm h1, Ne.symm h2, Ne.symm h3, Ne.symm h4,
    Ne.symm h5, Ne.symm h6, Ne.symm h7, Ne.symm h8]

theorem lookupHook_registered (env : Env) (name : String)
    (h : name ∈ (HookMap env).map Prod.fst) : ∃ f, lookupHook env name = some f := by
  simp only [HookMap, List.map_cons, List.map_nil, List.mem_cons, List.mem_singleton,
    List.not_mem_nil, or_false] at h
  rcases h with h | h | h | h | h | h | h | h <;> subst h <;>
    simp [lookupHook, HookMap, Store.get]

/-- C4: a name that is not a key of `HookMap` is rejected by the Runner as an unregistered
hook, with no hook run (the world is unchanged), while a run of a registered name ends as
`ran` whatever the hook returns; the two outcomes differ. -/
theorem Run_rejects_unregistered_name (env : Env) (c : CommonCluster) (w : World)
    (name registered : String) (hname : name ∉ (HookMap env).map Prod.fst)
    (hreg : registered ∈ (HookMap env).map Prod.fst) :
    Run env [name] c w = (w, RunOutcome.unregisteredHook name)
      ∧ (Run env [registered] c w).2 = RunOutcome.ran
      ∧ (Run env [name] c w).2 ≠ (Run env [registered] c w).2 := by
  have h1 : Run env [name] c w = (w, RunOutcome.unregisteredHook name) := by
    simp [Run, resolveHooks, lookupHook_unregistered env name hname]
  obtain ⟨f, hf⟩ := lookupHook_registered env registered hreg
  have h2 : (Run env [registered] c w).2 = RunOutcome.ran := by
    simp [Run, resolveHooks, hf]
  refine ⟨h1, h2, ?_⟩
  rw [h1, h2]
  simp

/-- Witness of C4: the name `Nope` against the registered hook `StoreKubeConfig`, on a
cluster whose download always fails (so that the registered hook fails at run time). -/
theorem Run_rejects_unregistered_name_witness :
    Run quietEnv ["Nope"] failingCluster World.initial
        = (World.initial, RunOutcome.unregisteredHook "Nope")
      ∧ (Run quietEnv ["StoreKubeConfig"] failingCluster World.initial).2 = RunOutcome.ran
      ∧ (Run quietEnv ["Nope"] failingCluster World.initial).2
        ≠ (Run quietEnv ["StoreKubeConfig"] failingCluster World.initial).2 :=
  Run_rejects_unregistered_name quietEnv failingCluster World.initial "Nope" "StoreKubeConfig"
    (by simp [HookMap]) (by simp [HookMap])

/-- Counterexample to C5: `UpdatePrometheusPostHook` is registered in `HookMap`; on an input
that is not a cluster it calls `UpdatePrometheusConfig` and returns nil. -/
theorem UpdatePrometheusPostHook_accepts_any_input :
    ∃ f, ("UpdatePrometheusPostHook", f) ∈ HookMap quietEnv
      ∧ f (Input.other "string") World.initial
        = ({ trace := [Event.UpdatePrometheusConfig], files := [], configmaps := [] }, none) :=
  ⟨UpdatePrometheusPostHook quietEnv,
    List.Mem.tail _ (List.Mem.tail _ (List.Mem.head _)), rfl⟩

/-- C5, amended: on an input that is not a `CommonCluster`, every hook registered in `HookMap`
other than `UpdatePrometheusPostHook` returns the type-mismatch error and leaves the world as
it was (no call on a collaborator); `UpdatePrometheusPostHook` ignores its input, runs
`UpdatePrometheus` and returns nil. -/
theorem HookMap_type_mismatch (env : Env) (name : String) (f : Hook World)
    (hmem : (name, f) ∈ HookMap env) (typeName : String) (w : World) :
    (name ≠ "UpdatePrometheusPostHook" → f (Input.other typeName) w = (w, some wrongParameterType))
      ∧ (name = "UpdatePrometheusPostHook" →
          f (Input.other typeName) w = (UpdatePrometheus env w, none)) := by
  simp only [HookMap, List.mem_cons, List.mem_singleton, List.not_mem_nil, or_false,
    Prod.mk.injEq] at hmem
  rcases hmem with ⟨h, rfl⟩ | ⟨h, rfl⟩ | ⟨h, rfl⟩ | ⟨h, rfl⟩ | ⟨h, rfl⟩ | ⟨h, rfl⟩ | ⟨h, rfl⟩ |
    ⟨h, rfl⟩ <;> subst h <;> refine ⟨fun hne => ?_, fun heq => ?_⟩ <;>
    first
      | rfl
      | exact absurd rfl hne
      | exact absurd heq (by decide)

/-- Witness of the amended C5: `InstallMonitoring` on an input that is not a cluster. -/
theorem HookMap_type_mismatch_witness :
    ("InstallMonitoring" ≠ "UpdatePrometheusPostHook" →
        InstallMonitoring quietEnv (Input.other "string") World.initial
          = (World.initial, some wrongParameterType))
      ∧ ("InstallMonitoring" = "UpdatePrometheusPostHook" →
          InstallMonitoring quietEnv (Input.other "string") World.initial
            = (UpdatePrometheus quietEnv World.initial, none)) :=
  HookMap_type_mismatch quietEnv "InstallMonitoring" (InstallMonitoring quietEnv)
    (by simp [HookMap]) "string" World.initial

/-! ## Claims about the autoscaler and the helm hooks -/

/-- C6: for a cluster whose provider kind is neither Amazon nor Azure, or whose extracted
node-group list is empty, `InstallClusterAutoscalerPostHook` returns nil and leaves the world
as it was: `installDeployment` is not run, no collaborator is called. -/
theorem InstallClusterAutoscalerPostHook_noop (env : Env) (c : CommonCluster) (w : World)
    (h : (c.GetType ≠ Amazon ∧ c.GetType ≠ Azure)
      ∨ (c.GetType = Amazon ∧ env.getAmazonNodeGroups c = [])
      ∨ (c.GetType = Azure ∧ env.getAzureNodeGroups c = [])) :
    InstallClusterAutoscalerPostHook env (Input.cluster c) w = (w, none) := by
  have hne : Azure ≠ Amazon := by decide
  rcases h with ⟨h1, h2⟩ | ⟨h1, h2⟩ | ⟨h1, h3⟩
  · simp [InstallClusterAutoscalerPostHook, Input.asCluster, h1, h2]
  · simp [InstallClusterAutoscalerPostHook, Input.asCluster, h1, h2]
  · simp [InstallClusterAutoscalerPostHook, Input.asCluster, h1, hne, h3]

/-- Witness of C6: a cluster of provider kind `google`. -/
theorem InstallClusterAutoscalerPostHook_noop_witness :
    InstallClusterAutoscalerPostHook quietEnv (Input.cluster slowCluster) World.initial
      = (World.initial, none) :=
  InstallClusterAutoscalerPostHook_noop quietEnv slowCluster World.initial
    (Or.inl ⟨by decide, by decide⟩)

theorem helmClientLoop_all_fail (env : Env) (kc : Bytes) (s : Int)
    (hfail : ∀ k, env.GetHelmClient k ≠ none) :
    ∀ (n : Nat) (w : World),
      (helmClientLoop env kc s n w).2 = false
        ∧ (helmClientLoop env kc s n w).1.calls Kind.GetHelmClient
          = w.calls Kind.GetHelmClient + n := by
  intro n
  induction n with
  | zero =>
    intro w
    simp [helmClientLoop]
  | succ n ih =>
    intro w
    obtain ⟨e, he⟩ := Option.ne_none_iff_exists'.mp (hfail (w.calls Kind.GetHelmClient))
    have h := ih ((w.emit (Event.GetHelmClient kc)).emit (Event.Sleep s))
    simp only [helmClientLoop, he]
    refine ⟨h.1, ?_⟩
    rw [h.2]
    simp [calls_emit, Event.kind]
    omega

/-- C7: on a cluster handle, `InstallHelmPostHook` returns a non-nil error only when a call of
`GetK8sConfig` fails (the first one, or the one after a successful `RetryHelmInstall`), and
then it is that error; it returns nil when `RetryHelmInstall` fails, and also when every
`GetHelmClient` attempt of the readiness poll fails, after `retryAttempts + 1` attempts. -/
theorem InstallHelmPostHook_error_only_from_GetK8sConfig (env : Env) (c : CommonCluster)
    (w : World) :
    (∀ e, (InstallHelmPostHook env (Input.cluster c) w).2 = some e →
        (c.GetK8sConfig (w.calls Kind.GetK8sConfig)).2 = some e
          ∨ ((c.GetK8sConfig (w.calls Kind.GetK8sConfig)).2 = none
            ∧ env.RetryHelmInstall (w.calls Kind.RetryHelmInstall) = none
            ∧ (c.GetK8sConfig (w.calls Kind.GetK8sConfig + 1)).2 = some e))
      ∧ ((c.GetK8sConfig (w.calls Kind.GetK8sConfig)).2 = none →
          env.RetryHelmInstall (w.calls Kind.RetryHelmInstall) ≠ none →
          (InstallHelmPostHook env (Input.cluster c) w).2 = none)
      ∧ ((c.GetK8sConfig (w.calls Kind.GetK8sConfig)).2 = none →
          env.RetryHelmInstall (w.calls Kind.RetryHelmInstall) = none →
          (c.GetK8sConfig (w.calls Kind.GetK8sConfig + 1)).2 = none →
          (∀ k, env.GetHelmClient k ≠ none) →
          (InstallHelmPostHook env (Input.cluster c) w).2 = none
            ∧ (InstallHelmPostHook env (Input.cluster c) w).1.calls Kind.GetHelmClient
              = w.calls Kind.GetHelmClient + (env.helmRetryAttempt + 1).toNat) := by
  have hR : (w.emit Event.GetK8sConfig).calls Kind.RetryHelmInstall
      = w.calls Kind.RetryHelmInstall := by simp [calls_emit, Event.kind]
  have hG : ∀ a b d kc, ((w.emit Event.GetK8sConfig).emit
      (Event.RetryHelmInstall a b d kc)).calls Kind.GetK8sConfig
        = w.calls Kind.GetK8sConfig + 1 := by
    intro a b d kc
    simp [calls_emit, Event.kind]
  have hH : ∀ a b d kc, (((w.emit Event.GetK8sConfig).emit
      (Event.RetryHelmInstall a b d kc)).emit Event.GetK8sConfig).calls Kind.GetHelmClient
        = w.calls Kind.GetHelmClient := by
    intro a b d kc
    simp [calls_emit, Event.kind]
  rcases h1 : c.GetK8sConfig (w.calls Kind.GetK8sConfig) with ⟨b1, r1⟩
  cases r1 with
  | some e1 =>
    simp [InstallHelmPostHook, Input.asCluster, GetK8sConfig, h1]
  | none =>
    cases h2 : env.RetryHelmInstall (w.calls Kind.RetryHelmInstall) with
    | some e2 =>
      simp [InstallHelmPostHook, Input.asCluster, GetK8sConfig, h1, hR, h2]
    | none =>
      rcases h3 : c.GetK8sConfig (w.calls Kind.GetK8sConfig + 1) with ⟨b3, r3⟩
      cases r3 with
      | some e3 =>
        simp [InstallHelmPostHook, Input.asCluster, GetK8sConfig, h1, hR, h2, hG, h3]
      | none =>
        simp only [InstallHelmPostHook, Input.asCluster, GetK8sConfig, h1, hR, h2, hG, h3]
        refine ⟨?_, ?_, ?_⟩
        · intro e he
          split at he <;> simp at he
        · intro _ hne
          exact absurd rfl hne
        · intro _ _ _ hfail
          have hl := helmClientLoop_all_fail env b3 env.helmRetrySleepSeconds hfail
            (env.helmRetryAttempt + 1).toNat
            (((w.emit Event.GetK8sConfig).emit (Event.RetryHelmInstall "kube-system" "tiller"
              ("gcr.io/kubernetes-helm/tiller:" ++ env.tillerVersion) b1)).emit Event.GetK8sConfig)
          rw [hH] at hl
          constructor
          · split <;> rfl
          · split
            · next w4 hw4 => rw [hw4] at hl; exact hl.2
            · next w4 hw4 => rw [hw4] at hl; exact hl.2

/-- Witness of C7: the helm client never becomes available; with two configured retry
attempts the hook polls three times and returns nil. -/
theorem InstallHelmPostHook_error_only_from_GetK8sConfig_witness :
    (InstallHelmPostHook noTillerEnv (Input.cluster failingCluster) World.initial).2 = none
      ∧ (InstallHelmPostHook noTillerEnv (Input.cluster failingCluster) World.initial).1.calls
          Kind.GetHelmClient
        = World.initial.calls Kind.GetHelmClient + (noTillerEnv.helmRetryAttempt + 1).toNat :=
  (InstallHelmPostHook_error_only_from_GetK8sConfig noTillerEnv failingCluster World.initial).2.2
    rfl rfl rfl (by intro k; simp [noTillerEnv])

/-! ## Claims about `PersistKubernetesKeys` -/

/-- C8, at the failing input: when fetching the configmap fails (and every other step
succeeds), `PersistKubernetesKeys` does not return that error: the error is not looked at, the
next statement assigns into the nil `Data` map of the record that the failed `Get` handed
back, and the run ends there by a run-time panic, after the four files were written. -/
theorem PersistKubernetesKeys_ignores_Get_error :
    (PersistKubernetesKeys getFailsEnv (Input.cluster readyCluster) mirrorWorld).2
        = HookResult.panicked "assignment to entry in nil map"
      ∧ (PersistKubernetesKeys getFailsEnv (Input.cluster readyCluster) mirrorWorld).2
        ≠ HookResult.returned (some "get failed")
      ∧ (PersistKubernetesKeys getFailsEnv (Input.cluster readyCluster) mirrorWorld).1.trace
        = [Event.GetK8sConfig,
            Event.WriteToFile [1, 2, 3] "./statestore/c1/cluster.cfg",
            Event.WriteToFile [1, 1, 2, 3] "./statestore/c1/client-key-data.pem",
            Event.WriteToFile [2, 1, 2, 3] "./statestore/c1/client-certificate-data.pem",
            Event.WriteToFile [3, 1, 2, 3] "./statestore/c1/certificate-authority-data.pem",
            Event.GetK8sInClusterConnection,
            Event.ConfigMapsGet "monitor"] := by
  refine ⟨?_, ?_, ?_⟩ <;> decide

/-! ## Claims about `AmazonObjectStore.CreateBucket` -/

/-- C10, at the failing input: for every bucket name, when the row was saved and the S3 call
`CreateBucket` fails while `deleteFromDb` succeeds, the row is removed again but `CreateBucket`
does not return: calling `Error` on the nil result of `deleteFromDb` is a run-time error. -/
theorem CreateBucket_stops_when_deleteFromDb_succeeds (bucketName region : String) (uid : Nat) :
    ObjectStore.CreateBucket { region := region, user := some uid } ObjectStore.s3FailsAnswers
        bucketName ObjectStore.State.initial
      = ({ db := [], nextID := 2, s3 := [ObjectStore.S3Call.CreateBucket bucketName] },
          ObjectStore.Outcome.nilDereference) := by
  have hrows : ObjectStore.findRows bucketName
      [{ ID := 1, UserID := uid, Name := bucketName, Region := region }]
        = [{ ID := 1, UserID := uid, Name := bucketName, Region := region }] := by
    unfold ObjectStore.findRows
    split <;> simp
  simp [ObjectStore.CreateBucket, ObjectStore.persistToDb, ObjectStore.deleteFromDb,
    ObjectStore.s3FailsAnswers, ObjectStore.State.initial, hrows]

theorem WriteToFile_facts (env : Env) (d : Bytes) (p : String) (w : World) :
    (WriteToFile env d p w).1.configmaps = w.configmaps
      ∧ (WriteToFile env d p w).1.calls Kind.ConfigMapsGet = w.calls Kind.ConfigMapsGet
      ∧ ((WriteToFile env d p w).2 = none →
          (WriteToFile env d p w).1.files = Store.set p d w.files) := by
  unfold WriteToFile
  cases env.WriteToFile (w.calls Kind.WriteToFile) with
  | some e => simp [World.emit, World.calls, countKind_append, countKind_cons, Event.kind, countKind]
  | none => simp [World.emit, World.calls, countKind_append, countKind_cons, Event.kind, countKind]

theorem ConfigMapsGet_facts (env : Env) (configName : String) (w : World) :
    (ConfigMapsGet env configName w).1.files = w.files
      ∧ (ConfigMapsGet env configName w).1.configmaps = w.configmaps
      ∧ (∀ data, (ConfigMapsGet env configName w).2.1.Data = some data →
          (ConfigMapsGet env configName w).2.1.Name = configName
            ∧ Store.get configName w.configmaps = some (some data)) := by
  unfold ConfigMapsGet
  cases env.ConfigMapsGet (w.calls Kind.ConfigMapsGet) with
  | some e => simp [World.emit, emptyConfigMap]
  | none =>
    cases hs : Store.get configName w.configmaps with
    | none => simp [World.emit, emptyConfigMap]
    | some d => simp [World.emit]

theorem ConfigMapsUpdate_facts (env : Env) (configmap : ConfigMap) (w : World) :
    (ConfigMapsUpdate env configmap w).1.files = w.files
      ∧ ((ConfigMapsUpdate env configmap w).2 = none →
          (ConfigMapsUpdate env configmap w).1.configmaps
            = Store.set configmap.Name configmap.Data w.configmaps) := by
  unfold ConfigMapsUpdate
  cases env.ConfigMapsUpdate (w.calls Kind.ConfigMapsUpdate) with
  | some e => simp [World.emit]
  | none =>
    cases hs : Store.get configmap.Name w.configmaps with
    | none => simp [World.emit]
    | some d => simp [World.emit]

theorem saveKeysToConfigmap_facts (env : Env) (config : RestConfig) (configName : String)
    (c : CommonCluster) (w : World) :
    (saveKeysToConfigmap env config configName c.GetName w).1.files = w.files
      ∧ ((saveKeysToConfigmap env config configName c.GetName w).2 = HookResult.returned none →
          ∃ data, Store.get configName w.configmaps = some (some data)
            ∧ (saveKeysToConfigmap env config configName c.GetName w).1.configmaps
              = Store.set configName (some (mirroredData c config data)) w.configmaps) := by
  unfold saveKeysToConfigmap
  cases env.GetK8sInClusterConnection (w.calls Kind.GetK8sInClusterConnection) with
  | some e => simp [World.emit]
  | none =>
    simp only []
    have fg := ConfigMapsGet_facts env configName (w.emit Event.GetK8sInClusterConnection)
    rcases hG : ConfigMapsGet env configName (w.emit Event.GetK8sInClusterConnection)
      with ⟨w2, ⟨nm, dt⟩, rg⟩
    rw [hG] at fg
    simp only [] at fg ⊢
    cases dt with
    | none =>
      simp only []
      refine ⟨?_, ?_⟩
      · rw [fg.1]
        rfl
      · intro hcontra
        exact absurd hcontra (by simp)
    | some data =>
      simp only []
      obtain ⟨hnm, hst⟩ := fg.2.2 data rfl
      have fu := ConfigMapsUpdate_facts env
        { Name := nm, Data := some (mirroredData c config data) } w2
      rcases hU : ConfigMapsUpdate env
        { Name := nm, Data := some (mirroredData c config data) } w2 with ⟨w3, ru⟩
      rw [hU] at fu
      simp only [] at fu
      simp only [mirroredData] at hU
      rw [hU]
      cases ru with
      | some e =>
        simp only []
        refine ⟨?_, ?_⟩
        · rw [fu.1, fg.1]
          rfl
        · intro hcontra
          exact absurd hcontra (by simp)
      | none =>
        simp only []
        refine ⟨?_, ?_⟩
        · rw [fu.1, fg.1]
          rfl
        · intro _
          refine ⟨data, hst, ?_⟩
          rw [fu.2 rfl, fg.2.1, hnm]
          rfl

/-- A successful run of `PersistKubernetesKeys`: the configuration was read, the four files
hold the artifacts, and with a mirror configured the configmap was stored with a non-nil
`Data` map and now holds the three entries of the cluster. -/
theorem PersistKubernetesKeys_success (env : Env) (c : CommonCluster) (w : World)
    (h : (PersistKubernetesKeys env (Input.cluster c) w).2 = HookResult.returned none) :
    (c.GetK8sConfig (w.calls Kind.GetK8sConfig)).2 = none
      ∧ (PersistKubernetesKeys env (Input.cluster c) w).1.files
        = persistedFiles env c (c.GetK8sConfig (w.calls Kind.GetK8sConfig)).1 w.files
      ∧ (PersistKubernetesKeys env (Input.cluster c) w).1.configmaps
        = persistedConfigmaps env c (c.GetK8sConfig (w.calls Kind.GetK8sConfig)).1 w.configmaps
      ∧ (env.monitorConfigmap ≠ "" ∧ env.monitorMountPath ≠ "" →
          ∃ data, Store.get env.monitorConfigmap w.configmaps = some (some data)) := by
  revert h
  simp only [PersistKubernetesKeys, Input.asCluster, GetK8sConfig]
  rcases hk : c.GetK8sConfig (w.calls Kind.GetK8sConfig) with ⟨kc, r⟩
  cases r with
  | some e => simp
  | none =>
    simp only []
    have f1 := WriteToFile_facts env kc (env.GetStateStorePath c.GetName ++ "/cluster.cfg")
      (w.emit Event.GetK8sConfig)
    rcases hW1 : WriteToFile env kc (env.GetStateStorePath c.GetName ++ "/cluster.cfg")
      (w.emit Event.GetK8sConfig) with ⟨w2, r2⟩
    rw [hW1] at f1
    cases r2 with
    | some e => simp
    | none =>
      simp only []
      rcases hP : env.GetK8sClientConfig kc with ⟨config, rp⟩
      cases rp with
      | some e => simp
      | none =>
        simp only []
        have f2 := WriteToFile_facts env config.KeyData
          (env.GetStateStorePath c.GetName ++ "/client-key-data.pem") w2
        rcases hW2 : WriteToFile env config.KeyData
          (env.GetStateStorePath c.GetName ++ "/client-key-data.pem") w2 with ⟨w3, r3⟩
        rw [hW2] at f2
        cases r3 with
        | some e => simp
        | none =>
          simp only []
          have f3 := WriteToFile_facts env config.CertData
            (env.GetStateStorePath c.GetName ++ "/client-certificate-data.pem") w3
          rcases hW3 : WriteToFile env config.CertData
            (env.GetStateStorePath c.GetName ++ "/client-certificate-data.pem") w3 with ⟨w4, r4⟩
          rw [hW3] at f3
          cases r4 with
          | some e => simp
          | none =>
            simp only []
            have f4 := WriteToFile_facts env config.CAData
              (env.GetStateStorePath c.GetName ++ "/certificate-authority-data.pem") w4
            rcases hW4 : WriteToFile env config.CAData
              (env.GetStateStorePath c.GetName ++ "/certificate-authority-data.pem") w4 with ⟨w5, r5⟩
            rw [hW4] at f4
            cases r5 with
            | some e => simp
            | none =>
              simp only [] at f1 f2 f3 f4 ⊢
              have hfiles : w5.files = persistedFiles env c kc w.files := by
                rw [f4.2.2 trivial, f3.2.2 trivial, f2.2.2 trivial, f1.2.2 trivial]
                simp [persistedFiles, hP, World.emit]
              have hcms : w5.configmaps = w.configmaps := by
                rw [f4.1, f3.1, f2.1, f1.1]
                rfl
              by_cases hc : env.monitorConfigmap ≠ "" ∧ env.monitorMountPath ≠ ""
              · have fs := saveKeysToConfigmap_facts env config env.monitorConfigmap c w5
                rcases hS : saveKeysToConfigmap env config env.monitorConfigmap c.GetName w5
                  with ⟨w6, r6⟩
                rw [hS] at fs
                rw [if_pos hc]
                cases r6 with
                | panicked msg => simp
                | returned e6 =>
                  cases e6 with
                  | some e => simp
                  | none =>
                    intro _
                    simp only [] at fs ⊢
                    obtain ⟨data, hdata, hcm⟩ := fs.2 trivial
                    rw [hcms] at hdata hcm
                    refine ⟨trivial, ?_, ?_, fun _ => ⟨data, hdata⟩⟩
                    · rw [fs.1, hfiles]
                    · rw [hcm]
                      simp [persistedConfigmaps, hc, hP, hdata]
              · rw [if_neg hc]
                intro _
                refine ⟨trivial, hfiles, ?_, fun h => absurd h hc⟩
                rw [hcms]
                simp [persistedConfigmaps, hc]

theorem persistedFiles_twice (env : Env) (c : CommonCluster) (kc : Bytes)
    (files : List (String × Bytes)) :
    persistedFiles env c kc (persistedFiles env c kc files) = persistedFiles env c kc files := by
  unfold persistedFiles
  exact Store.set4_twice _ _ _ _ _ _ _ _ _
    (append_ne_append _ _ _ (by decide)) (append_ne_append _ _ _ (by decide))
    (append_ne_append _ _ _ (by decide)) (append_ne_append _ _ _ (by decide))
    (append_ne_append _ _ _ (by decide)) (append_ne_append _ _ _ (by decide))

theorem mirroredData_twice (c : CommonCluster) (config : RestConfig)
    (data : List (String × Bytes)) :
    mirroredData c config (mirroredData c config data) = mirroredData c config data := by
  unfold mirroredData
  exact Store.set3_twice _ _ _ _ _ _ _
    (append_ne_append _ _ _ (by decide)) (append_ne_append _ _ _ (by decide))
    (append_ne_append _ _ _ (by decide))

theorem persistedConfigmaps_twice (env : Env) (c : CommonCluster) (kc : Bytes)
    (cms : List (String × Option (List (String × Bytes)))) :
    persistedConfigmaps env c kc (persistedConfigmaps env c kc cms)
      = persistedConfigmaps env c kc cms := by
  unfold persistedConfigmaps
  by_cases hc : env.monitorConfigmap ≠ "" ∧ env.monitorMountPath ≠ ""
  · simp only [if_pos hc]
    rcases hs : Store.get env.monitorConfigmap cms with _ | (_ | data)
    · simp only [hs]
    · simp only [hs]
    · simp only [Store.get_set_self]
      apply Store.set_of_get
      rw [Store.get_set_self, mirroredData_twice]
  · simp only [if_neg hc]

/-- C9: for a cluster whose `GetK8sConfig` returns the same bytes to both runs and whose two
runs of `PersistKubernetesKeys` succeed (every write goes through and the hook returns nil),
the second run leaves the file store and the configmap store exactly as the first run left
them: the four files under the state-store path of the cluster hold the configuration, the
key, the certificate and the CA, and the configured configmap, which is stored with a non-nil
`Data` map, holds the three entries prefixed with the name of the cluster. -/
theorem PersistKubernetesKeys_idempotent (env : Env) (c : CommonCluster) (w : World)
    (hcfg : (c.GetK8sConfig ((PersistKubernetesKeys env (Input.cluster c) w).1.calls
        Kind.GetK8sConfig)).1 = (c.GetK8sConfig (w.calls Kind.GetK8sConfig)).1)
    (h1 : (PersistKubernetesKeys env (Input.cluster c) w).2 = HookResult.returned none)
    (h2 : (PersistKubernetesKeys env (Input.cluster c)
        (PersistKubernetesKeys env (Input.cluster c) w).1).2 = HookResult.returned none) :
    (PersistKubernetesKeys env (Input.cluster c)
          (PersistKubernetesKeys env (Input.cluster c) w).1).1.files
        = (PersistKubernetesKeys env (Input.cluster c) w).1.files
      ∧ (PersistKubernetesKeys env (Input.cluster c)
          (PersistKubernetesKeys env (Input.cluster c) w).1).1.configmaps
        = (PersistKubernetesKeys env (Input.cluster c) w).1.configmaps
      ∧ (PersistKubernetesKeys env (Input.cluster c) w).1.files
        = persistedFiles env c (c.GetK8sConfig (w.calls Kind.GetK8sConfig)).1 w.files
      ∧ (PersistKubernetesKeys env (Input.cluster c) w).1.configmaps
        = persistedConfigmaps env c (c.GetK8sConfig (w.calls Kind.GetK8sConfig)).1
            w.configmaps
      ∧ (env.monitorConfigmap ≠ "" ∧ env.monitorMountPath ≠ "" →
          ∃ data, Store.get env.monitorConfigmap w.configmaps = some (some data)) := by
  obtain ⟨_, hf1, hc1, hd1⟩ := PersistKubernetesKeys_success env c w h1
  obtain ⟨_, hf2, hc2, _⟩ := PersistKubernetesKeys_success env c _ h2
  refine ⟨?_, ?_, hf1, hc1, hd1⟩
  · rw [hf2, hcfg, hf1, persistedFiles_twice]
  · rw [hc2, hcfg, hc1, persistedConfigmaps_twice]

/-- Witness of C9: a cluster whose configuration is available, a configmap `monitor` that
exists and holds an entry of another cluster, and collaborators that all succeed; the two
runs leave the same four files and the same configmap. -/
theorem PersistKubernetesKeys_idempotent_witness :
    (PersistKubernetesKeys mirrorEnv (Input.cluster readyCluster)
          (PersistKubernetesKeys mirrorEnv (Input.cluster readyCluster) mirrorWorld).1).1.files
        = (PersistKubernetesKeys mirrorEnv (Input.cluster readyCluster) mirrorWorld).1.files
      ∧ (PersistKubernetesKeys mirrorEnv (Input.cluster readyCluster)
          (PersistKubernetesKeys mirrorEnv (Input.cluster readyCluster)
            mirrorWorld).1).1.configmaps
        = (PersistKubernetesKeys mirrorEnv (Input.cluster readyCluster) mirrorWorld).1.configmaps
      ∧ (PersistKubernetesKeys mirrorEnv (Input.cluster readyCluster) mirrorWorld).1.files
        = persistedFiles mirrorEnv readyCluster
            (readyCluster.GetK8sConfig (mirrorWorld.calls Kind.GetK8sConfig)).1
            mirrorWorld.files
      ∧ (PersistKubernetesKeys mirrorEnv (Input.cluster readyCluster) mirrorWorld).1.configmaps
        = persistedConfigmaps mirrorEnv readyCluster
            (readyCluster.GetK8sConfig (mirrorWorld.calls Kind.GetK8sConfig)).1
            mirrorWorld.configmaps
      ∧ (mirrorEnv.monitorConfigmap ≠ "" ∧ mirrorEnv.monitorMountPath ≠ "" →
          ∃ data, Store.get mirrorEnv.monitorConfigmap mirrorWorld.configmaps
            = some (some data)) :=
  PersistKubernetesKeys_idempotent mirrorEnv readyCluster mirrorWorld rfl (by decide)
    (by decide)

/-- The stores of the witness of C9 after one run, and after two. -/
theorem PersistKubernetesKeys_example_stores :
    (PersistKubernetesKeys mirrorEnv (Input.cluster readyCluster) mirrorWorld).1.files
        = [("./statestore/c1/cluster.cfg", [1, 2, 3]),
            ("./statestore/c1/client-key-data.pem", [1, 1, 2, 3]),
            ("./statestore/c1/client-certificate-data.pem", [2, 1, 2, 3]),
            ("./statestore/c1/certificate-authority-data.pem", [3, 1, 2, 3])]
      ∧ (PersistKubernetesKeys mirrorEnv (Input.cluster readyCluster) mirrorWorld).1.configmaps
        = [("monitor", some [("c0_client-key-data.pem", [9]),
            ("c1_client-key-data.pem", [1, 1, 2, 3]),
            ("c1_client-certificate-data.pem", [2, 1, 2, 3]),
            ("c1_certificate-authority-data.pem", [3, 1, 2, 3])])]
      ∧ (PersistKubernetesKeys mirrorEnv (Input.cluster readyCluster)
          (PersistKubernetesKeys mirrorEnv (Input.cluster readyCluster) mirrorWorld).1).1.configmaps
        = [("monitor", some [("c0_client-key-data.pem", [9]),
            ("c1_client-key-data.pem", [1, 1, 2, 3]),
            ("c1_client-certificate-data.pem", [2, 1, 2, 3]),
            ("c1_certificate-authority-data.pem", [3, 1, 2, 3])])] := by
  refine ⟨?_, ?_, ?_⟩ <;> decide

/-- With no configmap `monitor` stored, the fetch fails with not found and the run ends by the
same run-time panic. -/
theorem PersistKubernetesKeys_missing_configmap :
    (PersistKubernetesKeys mirrorEnv (Input.cluster readyCluster) World.initial).2
      = HookResult.panicked "assignment to entry in nil map" := by
  decide

end Pipeline
